import Mathlib

/-!
Verification of the Lovable prompt generator (`app.py`).

Python strings are modelled as `List Char`, bytes as `List Nat` with values
below 256, and decoded JSON values as the inductive type `Json` below.  The
standard-library JSON parser (`json.loads`) is an external component and is
modelled as a parameter `parse : List Char → Option Json` (`some` for a
successful parse, `none` for `json.JSONDecodeError`).
-/

set_option maxRecDepth 10000

namespace LovableApp

/-- Python whitespace characters recognised by `str.strip` (ASCII range). -/
def pySpace (c : Char) : Bool :=
  c == ' ' || c == '\t' || c == '\n' || c == '\r' || c == '\x0b' || c == '\x0c'

/-- Model of Python `str.strip()`: drop whitespace from both ends. -/
def pyStrip (s : List Char) : List Char :=
  ((s.dropWhile pySpace).reverse.dropWhile pySpace).reverse

/-- The backtick character (written by code point to keep source plain). -/
def btk : Char := Char.ofNat 96

/-- The single-quote character (written by code point to keep source plain). -/
def sq : Char := Char.ofNat 39

/-- The three-backtick fence marker the source strips from model responses. -/
def threeTicks : List Char := [btk, btk, btk]

/-- Model of Python `s.split("\x60\x60\x60")`: split on the leftmost,
non-overlapping occurrences of the three-backtick fence. -/
def pySplitTicks : List Char → List (List Char)
  | c1 :: c2 :: c3 :: cs =>
    if c1 = btk ∧ c2 = btk ∧ c3 = btk then
      [] :: pySplitTicks cs
    else
      match pySplitTicks (c2 :: c3 :: cs) with
      | h :: t => (c1 :: h) :: t
      | [] => [[c1]]
  | s => [s]

/-- Model of Python `s.split('.')`. -/
def pySplitDot : List Char → List (List Char)
  | [] => [[]]
  | c :: cs =>
    if c = '.' then
      [] :: pySplitDot cs
    else
      match pySplitDot cs with
      | h :: t => (c :: h) :: t
      | [] => [[c]]

/-- Decoded JSON values, as produced by the (modelled) `json.loads`.
Numbers are modelled as integers; objects as association lists in key order. -/
inductive Json where
  | str (s : List Char)
  | num (n : Int)
  | bool (b : Bool)
  | null
  | arr (xs : List Json)
  | obj (kvs : List (List Char × Json))

mutual

/-- Python `repr` of a decoded JSON value (string escaping not modelled). -/
def pyRepr : Json → List Char
  | .str s => sq :: s ++ [sq]
  | .num n => (toString n).toList
  | .bool true => "True".toList
  | .bool false => "False".toList
  | .null => "None".toList
  | .arr xs => '[' :: pyReprList xs ++ [']']
  | .obj kvs => Char.ofNat 123 :: pyReprKVs kvs ++ [Char.ofNat 125]

/-- Comma-separated `repr` of JSON array elements. -/
def pyReprList : List Json → List Char
  | [] => []
  | [x] => pyRepr x
  | x :: y :: xs => pyRepr x ++ ", ".toList ++ pyReprList (y :: xs)

/-- Comma-separated `repr` of JSON object entries. -/
def pyReprKVs : List (List Char × Json) → List Char
  | [] => []
  | [(k, v)] => sq :: k ++ [sq] ++ ": ".toList ++ pyRepr v
  | (k, v) :: e :: kvs =>
      sq :: k ++ [sq] ++ ": ".toList ++ pyRepr v ++ ", ".toList ++ pyReprKVs (e :: kvs)

end

/-- Python `str()` applied to a decoded JSON value, as `str.format` does when
interpolating a value into the template. -/
def pyStr : Json → List Char
  | .str s => s
  | j => pyRepr j

/-- Model of Python `dict.get(k, default)` over an association list (first
match wins, mirroring the unique-key dict): the default applies only when the
key is absent. -/
def dictGetD (d : List (List Char × Json)) (k : List Char) (dflt : Json) : Json :=
  match d.find? (fun kv => kv.1 == k) with
  | some kv => kv.2
  | none => dflt

/-- The sentinel string the source uses for unidentified brand attributes. -/
def sentinelStr : List Char := "NO IDENTIFICADO".toList

def kColorPrimario : List Char := "color_primario".toList

def kColorSecundario : List Char := "color_secundario".toList

def kColorTexto : List Char := "color_texto".toList

def kColorFondo : List Char := "color_fondo".toList

def kTipografia : List Char := "tipografia".toList

def kEstilo : List Char := "estilo".toList

def kEstiloBotones : List Char := "estilo_botones".toList

def kNotasAdicionales : List Char := "notas_adicionales".toList

/-- The fallback record built by `extract_brand_info` when `json.loads`
raises (`app.py` lines 155-161): four sentinel-valued keys plus the cleaned
response text under `notas_adicionales`. -/
def fallbackBrand (t : List Char) : Json :=
  .obj [(kColorPrimario, .str sentinelStr),
        (kColorSecundario, .str sentinelStr),
        (kTipografia, .str sentinelStr),
        (kEstiloBotones, .str sentinelStr),
        (kNotasAdicionales, .str t)]

/-- The marker `"json"` that may label the opening fence. -/
def jsonTag : List Char := "json".toList

/-- The response normalisation in `extract_brand_info` (`app.py` lines
144-150): strip, remove a leading code fence (taking the text between the
first two fence markers and dropping a leading `json` label), strip again. -/
def normalizeResponse (s : List Char) : List Char :=
  let t := pyStrip s
  let t :=
    if threeTicks.isPrefixOf t then
      let t1 := (pySplitTicks t).getD 1 []
      if jsonTag.isPrefixOf t1 then t1.drop 4 else t1
    else t
  pyStrip t

/-- The response-parsing stage of `extract_brand_info` (`app.py` lines
144-161): normalise the text, try `json.loads` (modelled by `parse`), and on
failure return the fallback record. -/
def parse_brand_response (parse : List Char → Option Json) (s : List Char) : Json :=
  let t := normalizeResponse s
  match parse t with
  | some j => j
  | none => fallbackBrand t

/-- Look up a key in a decoded JSON object; `none` for absent keys or
non-object values. -/
def jsonLookup (j : Json) (k : List Char) : Option Json :=
  match j with
  | .obj kvs =>
    match kvs.find? (fun kv => kv.1 == k) with
    | some kv => some kv.2
    | none => none
  | _ => none

/-- The standard base64 alphabet, as used by `base64.standard_b64encode`. -/
def b64Alphabet : List Char :=
  "ABCDEFGHIJKLMNOPQRSTUVWXYZabcdefghijklmnopqrstuvwxyz0123456789+/".toList

/-- The base64 digit for a 6-bit value. -/
def b64char (n : Nat) : Char := b64Alphabet.getD n '?'

/-- The 6-bit value of a base64 digit. -/
def b64inv (c : Char) : Nat := b64Alphabet.indexOf c

/-- Standard base64 encoding (RFC 4648) of a byte sequence, the byte-to-text
transform performed by `base64.standard_b64encode`. -/
def b64encode : List Nat → List Char
  | [] => []
  | [a] => [b64char (a / 4), b64char (a % 4 * 16), '=', '=']
  | [a, b] => [b64char (a / 4), b64char (a % 4 * 16 + b / 16), b64char (b % 16 * 4), '=']
  | a :: b :: c :: rest =>
      b64char (a / 4) :: b64char (a % 4 * 16 + b / 16) ::
      b64char (b % 16 * 4 + c / 64) :: b64char (c % 64) :: b64encode rest

/-- Standard base64 decoding, the inverse transform against which the
round-trip law is stated (the source only encodes). -/
def b64decode : List Char → List Nat
  | e0 :: e1 :: e2 :: e3 :: rest =>
    if e2 = '=' then [b64inv e0 * 4 + b64inv e1 / 16]
    else if e3 = '=' then
      [b64inv e0 * 4 + b64inv e1 / 16, b64inv e1 % 16 * 16 + b64inv e2 / 4]
    else
      (b64inv e0 * 4 + b64inv e1 / 16) :: (b64inv e1 % 16 * 16 + b64inv e2 / 4) ::
      (b64inv e2 % 4 * 64 + b64inv e3) :: b64decode rest
  | _ => []

/-- `encode_image_to_base64` (`app.py` lines 78-80): base64-encode the bytes
read from the uploaded file. -/
def encode_image_to_base64 (fileBytes : List Nat) : List Char := b64encode fileBytes

/-- The extension computed by `get_image_media_type`:
`filename.lower().split('.')[-1]` (ASCII lowering). -/
def fileExt (filename : List Char) : List Char :=
  (pySplitDot (filename.map Char.toLower)).getLastD []

/-- The fixed extension-to-media-type lookup table (`app.py` lines 86-92). -/
def mediaTypes : List (List Char × List Char) :=
  [("png".toList, "image/png".toList),
   ("jpg".toList, "image/jpeg".toList),
   ("jpeg".toList, "image/jpeg".toList),
   ("gif".toList, "image/gif".toList),
   ("webp".toList, "image/webp".toList)]

/-- `get_image_media_type` (`app.py` lines 83-93): look the extension up in
the table, defaulting to the PNG media type. -/
def get_image_media_type (filename : List Char) : List Char :=
  match mediaTypes.find? (fun kv => kv.1 == fileExt filename) with
  | some kv => kv.2
  | none => "image/png".toList

/-- Literal segments of `PLANTILLA_LOVABLE` (`app.py` lines 49-75) between
the format placeholders, in order. -/
def plantilla0 : List Char :=
  "Crea una landing page de registro para webinar usando las imágenes adjuntas como referencia:\n- Imagen del brandboard → para colores, tipografía y estilo visual\n- Imágenes de estructura (opcional) → para ver layouts de secciones\n\nDATOS TÉCNICOS:\n- Color primario: ".toList

def plantilla1 : List Char := "\n- Color secundario: ".toList

def plantilla2 : List Char := "\n- Color de texto: ".toList

def plantilla3 : List Char := "\n- Color de fondo: ".toList

def plantilla4 : List Char := "\n- Tipografía: ".toList

def plantilla5 : List Char := "\n- Estilo: ".toList

def plantilla6 : List Char := "\n- Botones: fondo ".toList

def plantilla7 : List Char :=
  ", texto blanco, bordes redondeados\n\nIMPORTANTE: NO modifiques el texto que te proporciono. Cópialo exactamente palabra por palabra, sin cambiar ni una coma.\n\nSECCIONES:\n\n".toList

def plantilla8 : List Char :=
  "\n\nNOTAS TÉCNICAS:\n- Mobile-first, responsive\n- Donde indique FOTO, IMAGEN o MOCKUP, dejar placeholder gris\n- Formulario con validación básica\n- Contadores regresivos funcionales si aplica\n- Scroll suave entre secciones\n\nRECORDATORIO: No modifiques el texto. Cada palabra, cada coma, cada punto debe ser exacto.".toList

/-- `PLANTILLA_LOVABLE.format(...)`: interpolate the six brand values (the
secondary color twice, for the button line) and the sections block into the
template, string-converting each value as `str.format` does. -/
def plantillaFormat (cp cs ct cf tp es : Json) (secciones : List Char) : List Char :=
  plantilla0 ++ pyStr cp ++ plantilla1 ++ pyStr cs ++ plantilla2 ++ pyStr ct ++
  plantilla3 ++ pyStr cf ++ plantilla4 ++ pyStr tp ++ plantilla5 ++ pyStr es ++
  plantilla6 ++ pyStr cs ++ plantilla7 ++ secciones ++ plantilla8

/-- `generate_lovable_prompt` (`app.py` lines 282-293): fill the template
with `brand_info.get(key, default)` for each placeholder. -/
def generate_lovable_prompt (brand_info : List (List Char × Json))
    (structured_sections : List Char) : List Char :=
  plantillaFormat
    (dictGetD brand_info kColorPrimario (.str "#000000".toList))
    (dictGetD brand_info kColorSecundario (.str "#666666".toList))
    (dictGetD brand_info kColorTexto (.str "gris oscuro".toList))
    (dictGetD brand_info kColorFondo (.str "blanco".toList))
    (dictGetD brand_info kTipografia (.str "Inter".toList))
    (dictGetD brand_info kEstilo (.str "moderno, limpio, profesional".toList))
    structured_sections

/-- The six placeholder keys and the fixed defaults the source supplies for
them in `generate_lovable_prompt`. -/
def keyDefaults : List (List Char × List Char) :=
  [(kColorPrimario, "#000000".toList),
   (kColorSecundario, "#666666".toList),
   (kColorTexto, "gris oscuro".toList),
   (kColorFondo, "blanco".toList),
   (kTipografia, "Inter".toList),
   (kEstilo, "moderno, limpio, profesional".toList)]

/-- An uploaded image: filename plus the raw bytes read from the file. -/
structure UploadedImage where
  name : List Char
  bytes : List Nat
deriving DecidableEq

/-- One part of an outbound chat message's content. -/
inductive ContentPart where
  | text (s : List Char)
  | imageUrl (url : List Char)

/-- An outbound chat-completion request: the fixed model identifier, the
message content, and the per-call output-token budget. -/
structure Request where
  model : List Char
  content : List ContentPart
  maxTokens : Nat

/-- The fixed vision-capable model identifier (`app.py` line 46). -/
def VISION_MODEL : List Char := "anthropic/claude-sonnet-4".toList

/-- The inline image reference `data:<mediaType>;base64,<data>` built for
each uploaded image (`app.py` lines 126-135). -/
def dataUrl (img : UploadedImage) : List Char :=
  "data:".toList ++ get_image_media_type img.name ++ ";base64,".toList ++
    encode_image_to_base64 img.bytes

def brandInstruction : List Char :=
  "Analiza este brandboard/manual de marca y extrae la siguiente información en formato JSON:\n\n\x7b\n    \"color_primario\": \"#HEXCODE (el color principal de la marca)\",\n    \"color_secundario\": \"#HEXCODE (el color secundario o de acento, suele ser para botones/CTAs)\",\n    \"color_texto\": \"descripción del color de texto (ej: \x27gris azulado oscuro\x27, \x27#333333\x27)\",\n    \"color_fondo\": \"descripción del fondo (ej: \x27blanco\x27, \x27crema claro\x27, \x27#FAFAFA\x27)\",\n    \"tipografia\": \"Nombre EXACTO de la tipografía (debe existir en Google Fonts)\",\n    \"estilo\": \"palabras clave que describan el estilo (ej: \x27wellness, profesional, cercano, limpio\x27)\",\n    \"notas_adicionales\": \"cualquier otra observación relevante sobre el estilo visual\"\n\x7d\n\nIMPORTANTE sobre tipografía:\n- Busca el nombre exacto de la fuente en el brandboard\n- Debe ser una fuente que exista en Google Fonts\n- Ejemplos válidos: \"Be Vietnam Pro\", \"Montserrat\", \"Poppins\", \"Inter\", \"Playfair Display\"\n\nSi no puedes identificar algo con certeza, indica \"NO IDENTIFICADO\".\nResponde SOLO con el JSON, sin explicaciones adicionales.".toList

def copyInstruction : List Char :=
  "Transcribe TODO el texto visible en estas imágenes.\n\nREGLAS CRÍTICAS:\n1. Transcribe PALABRA POR PALABRA, exactamente como aparece\n2. NO resumas, NO parafrasees, NO \"mejores\" el texto\n3. Mantén saltos de línea donde los veas\n4. Si hay secciones claras, sepáralas con una línea en blanco\n5. Incluye TODO: títulos, subtítulos, bullets, botones, disclaimers\n\nEl copy de marketing está aprobado por el cliente y NO puede modificarse \"ni una coma\".\n\nResponde SOLO con el texto transcrito, sin comentarios tuyos.".toList

def structurePromptPrefix : List Char :=
  "Organiza el siguiente copy de landing page en secciones numeradas para Lovable.\n\nCOPY EXTRAÍDO:\n".toList

def structurePromptSuffix : List Char :=
  "\n\nFORMATO DE SALIDA - Usa EXACTAMENTE este formato con secciones numeradas:\n\n### SECCIÓN 1: HERO (centrado)\n[Título principal]\n[Subtítulo]\n[Texto descriptivo]\nFormulario:\n- Campo: Nombre\n- Campo: Email\n- Checkbox: [texto del checkbox si existe]\n- Botón: [texto del botón]\n\n### SECCIÓN 2: URGENCIA (centrado)\n[Fecha del evento]\n[Contador regresivo]\n[Texto de urgencia]\n\n### SECCIÓN 3: LEAD MAGNET (centrado)\n[Mockup regalo: descripción]\n[Descripción del regalo/bonus]\n\n### SECCIÓN 4: PAIN POINTS (centrado)\nTítulo: [Esto es para ti si... o similar]\n- [punto 1]\n- [punto 2]\n- [etc.]\n\n### SECCIÓN 5: BENEFICIOS + BIO (2 columnas en paralelo)\nCOLUMNA IZQUIERDA:\nTítulo: [Lo que vas a aprender/descubrir]\n- [beneficio 1]\n- [beneficio 2]\n- [etc.]\n\nCOLUMNA DERECHA:\n[PLACEHOLDER: FOTO DEL EXPERTO]\nNombre: [nombre]\nTítulo: [credenciales]\nBio: [texto completo de la bio]\n\n### SECCIÓN 6: TESTIMONIOS (centrado o grid de 3 columnas)\n[Testimonio 1]\n[Testimonio 2]\n[etc.]\n\n### SECCIÓN 7: CTA FINAL (centrado)\n[Título de cierre]\n[Fecha recordatorio]\n[Botón: texto del botón]\n\nREGLAS CRÍTICAS:\n1. Copia el texto EXACTAMENTE como está - PALABRA POR PALABRA\n2. NO resumas, NO parafrasees, NO \"mejores\" el texto\n3. Si una sección no existe en el copy, OMÍTELA (no la incluyas)\n4. Indica fotos con [PLACEHOLDER: descripción]\n5. NO inventes contenido que no esté en el copy original\n6. Para secciones de 2 columnas, especifica claramente qué va en cada columna".toList

/-- The request built by `extract_brand_info` (`app.py` lines 96-141): the
instruction text followed by one inline image per upload, in order. -/
def brandRequest (imgs : List UploadedImage) : Request :=
  ⟨VISION_MODEL, .text brandInstruction :: imgs.map (fun i => .imageUrl (dataUrl i)), 1000⟩

/-- The request built by `extract_copy` (`app.py` lines 164-201). -/
def copyRequest (imgs : List UploadedImage) : Request :=
  ⟨VISION_MODEL, .text copyInstruction :: imgs.map (fun i => .imageUrl (dataUrl i)), 4000⟩

/-- The request built by `structure_copy_into_sections` (`app.py` lines
206-277): a single text content embedding the raw copy. -/
def structureRequest (rawCopy : List Char) : Request :=
  ⟨VISION_MODEL, [.text (structurePromptPrefix ++ rawCopy ++ structurePromptSuffix)], 4000⟩

/-- The constructed API client handle (`OpenAI(base_url=..., api_key=...)`),
read-only after construction. -/
structure ClientHandle where
  base_url : List Char
  api_key : List Char
deriving DecidableEq

/-- `get_api_key` (`app.py` lines 22-27): the secrets store first, then the
`OPENROUTER_API_KEY` environment variable (modelled as an `Option`). -/
def get_api_key (secrets : List (List Char × List Char)) (env : Option (List Char)) :
    Option (List Char) :=
  match secrets.find? (fun kv => kv.1 == "OPENROUTER_API_KEY".toList) with
  | some kv => some kv.2
  | none => env

/-- The outcome of one `get_client` call: either the script halts
(`st.error` + `st.stop`) or a client handle is returned. -/
inductive GetClientOutcome where
  | halted
  | client (c : ClientHandle)

/-- `get_client` (`app.py` lines 29-43) as a transition on the process-wide
`_client` cell: reuse a constructed client; otherwise resolve the key, halt
when it is missing or empty (Python falsy), or construct the client once. -/
def get_client (secrets : List (List Char × List Char)) (env : Option (List Char))
    (cell : Option ClientHandle) : GetClientOutcome × Option ClientHandle :=
  match cell with
  | some c => (.client c, some c)
  | none =>
    match get_api_key secrets env with
    | none => (.halted, none)
    | some k =>
      if k = [] then (.halted, none)
      else
        let c : ClientHandle := ⟨"https://openrouter.ai/api/v1".toList, k⟩
        (.client c, some c)

/-- The `_client` cell after `n` successive `get_client` calls in one
session (the cell starts out `None`, `app.py` line 30). -/
def clientCellAfter (secrets : List (List Char × List Char)) (env : Option (List Char)) :
    Nat → Option ClientHandle
  | 0 => none
  | n + 1 => (get_client secrets env (clientCellAfter secrets env n)).2

/-- The user-visible outcome of one press of the generate button. -/
inductive HandlerResult where
  | missingBrandboard
  | missingCopy
  | configError
  | stepError (step : Nat) (msg : List Char)
  | crashed
  | generated (prompt : List Char)

/-- The generate-button handler (`app.py` lines 337-409): validate the two
image groups, then run brand extraction, copy transcription and section
structuring in order, each issuing one API call through the shared client,
and finally assemble the prompt.  `send` models the network; the returned
list is the log of outbound requests, and the `Option ClientHandle` is the
`_client` cell after the run.  A non-mapping brand JSON makes the final
`brand_info.get` raise outside any `try`, modelled as `crashed`. -/
def runButtonHandler (send : ClientHandle → Request → Except (List Char) (List Char))
    (parse : List Char → Option Json)
    (secrets : List (List Char × List Char)) (env : Option (List Char))
    (cell0 : Option ClientHandle) (brandboard_files copy_files : List UploadedImage) :
    HandlerResult × List Request × Option ClientHandle :=
  if brandboard_files = [] then (.missingBrandboard, [], cell0)
  else if copy_files = [] then (.missingCopy, [], cell0)
  else
    let req1 := brandRequest brandboard_files
    match get_client secrets env cell0 with
    | (.halted, cell1) => (.configError, [], cell1)
    | (.client c1, cell1) =>
      match send c1 req1 with
      | .error e => (.stepError 1 e, [req1], cell1)
      | .ok r1 =>
        let brand_info := parse_brand_response parse r1
        let req2 := copyRequest copy_files
        match get_client secrets env cell1 with
        | (.halted, cell2) => (.configError, [req1], cell2)
        | (.client c2, cell2) =>
          match send c2 req2 with
          | .error e => (.stepError 2 e, [req1, req2], cell2)
          | .ok r2 =>
            let raw_copy := pyStrip r2
            let req3 := structureRequest raw_copy
            match get_client secrets env cell2 with
            | (.halted, cell3) => (.configError, [req1, req2], cell3)
            | (.client c3, cell3) =>
              match send c3 req3 with
              | .error e => (.stepError 3 e, [req1, req2, req3], cell3)
              | .ok r3 =>
                let structured_sections := pyStrip r3
                match brand_info with
                | .obj kvs =>
                  (.generated (generate_lovable_prompt kvs structured_sections),
                    [req1, req2, req3], cell3)
                | _ => (.crashed, [req1, req2, req3], cell3)

theorem isPrefixOf_append_self (l₁ l₂ : List Char) : l₁.isPrefixOf (l₁ ++ l₂) = true := by
  induction l₁ with
  | nil => simp [List.isPrefixOf]
  | cons c cs ih => simp [List.isPrefixOf, ih]

theorem pySplitTicks_fence (cs : List Char) :
    pySplitTicks (btk :: btk :: btk :: cs) = [] :: pySplitTicks cs := by
  rw [pySplitTicks]
  simp

theorem pySplitTicks_ne_nil (s : List Char) : pySplitTicks s ≠ [] := by
  match s with
  | [] => simp [show pySplitTicks ([] : List Char) = [[]] from rfl]
  | [c] => simp [show pySplitTicks [c] = [[c]] from rfl]
  | [c, d] => simp [show pySplitTicks [c, d] = [[c, d]] from rfl]
  | c1 :: c2 :: c3 :: cs =>
    rw [pySplitTicks]
    by_cases h : c1 = btk ∧ c2 = btk ∧ c3 = btk
    · simp [h]
    · simp only [if_neg h]
      rcases hrec : pySplitTicks (c2 :: c3 :: cs) with _ | ⟨h1, t1⟩ <;> simp

theorem pySplitTicks_cons (c : Char) (s : List Char) (hc : c ≠ btk) :
    pySplitTicks (c :: s) =
      match pySplitTicks s with
      | h :: t => (c :: h) :: t
      | [] => [[c]] := by
  match s with
  | [] => rfl
  | [d] => rfl
  | d1 :: d2 :: ds =>
    rw [pySplitTicks]
    rw [if_neg (fun hand => hc hand.1)]

theorem dropWhile_cons_false (p : Char → Bool) (c : Char) (l : List Char) (h : p c = false) :
    List.dropWhile p (c :: l) = c :: l := by
  simp [List.dropWhile, h]

theorem pySplitTicks_no_tick (x y : List Char) (hx : btk ∉ x) :
    pySplitTicks (x ++ threeTicks ++ y) = x :: pySplitTicks y := by
  induction x with
  | nil => simpa [threeTicks] using pySplitTicks_fence y
  | cons c x' ih =>
    have hc : c ≠ btk := fun h => hx (h ▸ List.mem_cons_self c x')
    have hx' : btk ∉ x' := fun h => hx (List.mem_cons_of_mem c h)
    rw [List.cons_append, List.cons_append, pySplitTicks_cons c _ hc, ih hx']

theorem pyStrip_sandwich (c d : Char) (xs : List Char)
    (hc : pySpace c = false) (hd : pySpace d = false) :
    pyStrip (c :: xs ++ [d]) = c :: xs ++ [d] := by
  unfold pyStrip
  rw [show c :: xs ++ [d] = c :: (xs ++ [d]) from rfl]
  rw [dropWhile_cons_false _ _ _ hc]
  rw [show (c :: (xs ++ [d])).reverse = d :: (xs.reverse ++ [c]) from by simp]
  rw [dropWhile_cons_false _ _ _ hd]
  simp

/-- Claim C9: the response-parsing stage of `extract_brand_info` is total:
whenever the stripped response starts with a fence, the split produces at
least two parts, so the source's `[1]` index never fails; and on any input the
stage returns either the decoded JSON value or the fallback record. -/
theorem parse_stage_total :
    (∀ t : List Char, threeTicks.isPrefixOf t = true → 2 ≤ (pySplitTicks t).length) ∧
    (∀ (parse : List Char → Option Json) (raw : List Char),
      (∃ j, parse (normalizeResponse raw) = some j ∧ parse_brand_response parse raw = j) ∨
      (parse (normalizeResponse raw) = none ∧
        parse_brand_response parse raw = fallbackBrand (normalizeResponse raw))) := by
  constructor
  · intro t ht
    match t with
    | [] => simp [threeTicks, List.isPrefixOf] at ht
    | [c] => simp [threeTicks, List.isPrefixOf] at ht
    | [c, d] => simp [threeTicks, List.isPrefixOf] at ht
    | c1 :: c2 :: c3 :: cs =>
      simp only [threeTicks, List.isPrefixOf, Bool.and_eq_true, beq_iff_eq] at ht
      obtain ⟨h1, h2, h3, -⟩ := ht
      rw [← h1, ← h2, ← h3, pySplitTicks_fence]
      have := pySplitTicks_ne_nil cs
      cases hcs : pySplitTicks cs with
      | nil => exact absurd hcs this
      | cons a l => simp
  · intro parse raw
    cases hp : parse (normalizeResponse raw) with
    | some j => exact Or.inl ⟨j, rfl, by simp [parse_brand_response, hp]⟩
    | none => exact Or.inr ⟨rfl, by simp [parse_brand_response, hp]⟩

/-- Witness for C9 at the concrete response consisting of a single unclosed
fence marker. -/
theorem parse_stage_total_witness :
    2 ≤ (pySplitTicks "\x60\x60\x60".toList).length ∧
    parse_brand_response (fun _ => none) "\x60\x60\x60".toList =
      fallbackBrand (normalizeResponse "\x60\x60\x60".toList) := by
  refine ⟨parse_stage_total.1 _ (by decide), ?_⟩
  rcases parse_stage_total.2 (fun _ => none) "\x60\x60\x60".toList with ⟨j, hj, -⟩ | ⟨-, h⟩
  · exact absurd hj (by simp)
  · exact h

/-- Claim C5: whenever the normalised response text (stripped, with a leading
fenced block unwrapped and a `json` label dropped, per the source's
normaliser) parses as JSON, `extract_brand_info` returns exactly that decoded
value; and the normaliser maps a fence-wrapped `json`-labelled body (one that
itself contains no backtick) to that body, stripped. -/
theorem extract_valid_json_exact :
    (∀ (parse : List Char → Option Json) (raw : List Char) (j : Json),
      parse (normalizeResponse raw) = some j → parse_brand_response parse raw = j) ∧
    (∀ m : List Char, btk ∉ m →
      normalizeResponse (threeTicks ++ jsonTag ++ m ++ threeTicks) = pyStrip m) := by
  constructor
  · intro parse raw j hp
    simp [parse_brand_response, hp]
  · intro m hm
    have hshape : threeTicks ++ jsonTag ++ m ++ threeTicks =
        btk :: ((btk :: btk :: (jsonTag ++ m ++ [btk, btk])) ++ [btk]) := by
      simp [threeTicks, jsonTag]
    have hstrip1 : pyStrip (threeTicks ++ jsonTag ++ m ++ threeTicks) =
        threeTicks ++ jsonTag ++ m ++ threeTicks := by
      rw [hshape]
      exact pyStrip_sandwich btk btk _ (by decide) (by decide)
    have hpre : threeTicks.isPrefixOf (threeTicks ++ jsonTag ++ m ++ threeTicks) = true := by
      have h := isPrefixOf_append_self threeTicks (jsonTag ++ m ++ threeTicks)
      simp only [List.append_assoc] at h ⊢
      exact h
    have hsplit : pySplitTicks (threeTicks ++ jsonTag ++ m ++ threeTicks) =
        [[], jsonTag ++ m, []] := by
      have h0 : threeTicks ++ jsonTag ++ m ++ threeTicks =
          threeTicks ++ ((jsonTag ++ m) ++ threeTicks ++ []) := by
        simp [List.append_assoc]
      rw [h0, show threeTicks ++ ((jsonTag ++ m) ++ threeTicks ++ []) =
            btk :: btk :: btk :: ((jsonTag ++ m) ++ threeTicks ++ []) from by
            simp [threeTicks],
          pySplitTicks_fence]
      have hnb : btk ∉ jsonTag ++ m := by
        intro hin
        rcases List.mem_append.mp hin with h | h
        · exact absurd h (by decide)
        · exact hm h
      rw [pySplitTicks_no_tick _ _ hnb]
      simp [pySplitTicks]
    have hjsonpre : jsonTag.isPrefixOf (jsonTag ++ m) = true :=
      isPrefixOf_append_self jsonTag m
    have hdrop : (jsonTag ++ m).drop 4 = m := by
      have h : (jsonTag ++ m).drop jsonTag.length = m := List.drop_left jsonTag m
      rwa [show jsonTag.length = 4 from rfl] at h
    unfold normalizeResponse
    rw [hstrip1]
    simp only [hpre, if_pos rfl, hsplit, hjsonpre]
    simp [hdrop]

/-- Witness for C5 at the concrete fenced response containing the JSON
number 1. -/
theorem extract_valid_json_exact_witness :
    parse_brand_response
        (fun s => if s = ['1'] then some (Json.num 1) else none)
        "\x60\x60\x60json\n1\n\x60\x60\x60".toList = Json.num 1 ∧
    normalizeResponse (threeTicks ++ jsonTag ++ "\n1\n".toList ++ threeTicks) =
      pyStrip "\n1\n".toList := by
  constructor
  · exact extract_valid_json_exact.1 _ _ _ rfl
  · exact extract_valid_json_exact.2 "\n1\n".toList (by decide)

/-- Counterexample to C1 as stated: for the non-JSON response `"  hi  "`
(every parse fails on it, modelled by the constantly-failing parser), the
fallback record does not carry the recognized text-color key at all — so that
key does not equal the sentinel — and the notes field holds the stripped text
`"hi"`, not the raw response verbatim. -/
theorem extract_fallback_counterexample :
    jsonLookup (parse_brand_response (fun _ => none) "  hi  ".toList) kColorTexto = none ∧
    jsonLookup (parse_brand_response (fun _ => none) "  hi  ".toList) kNotasAdicionales =
      some (.str "hi".toList) ∧
    "hi".toList ≠ "  hi  ".toList := by
  refine ⟨rfl, rfl, by decide⟩

/-- Claim C1 (amended): for every response whose normalised text is not valid
JSON, `extract_brand_info` returns the fallback record mapping the keys
`color_primario`, `color_secundario`, `tipografia` and `estilo_botones` to the
sentinel `"NO IDENTIFICADO"`, and `notas_adicionales` to the fence-stripped,
whitespace-trimmed response text; the keys `color_texto`, `color_fondo` and
`estilo` are absent from it. -/
theorem extract_fallback_amended (parse : List Char → Option Json) (raw : List Char)
    (hfail : parse (normalizeResponse raw) = none) :
    parse_brand_response parse raw =
      .obj [(kColorPrimario, .str sentinelStr),
            (kColorSecundario, .str sentinelStr),
            (kTipografia, .str sentinelStr),
            (kEstiloBotones, .str sentinelStr),
            (kNotasAdicionales, .str (normalizeResponse raw))] ∧
    jsonLookup (parse_brand_response parse raw) kColorTexto = none ∧
    jsonLookup (parse_brand_response parse raw) kColorFondo = none ∧
    jsonLookup (parse_brand_response parse raw) kEstilo = none := by
  have hres : parse_brand_response parse raw = fallbackBrand (normalizeResponse raw) := by
    simp [parse_brand_response, hfail]
  have b1 : (kColorPrimario == kColorTexto) = false := by decide
  have b2 : (kColorSecundario == kColorTexto) = false := by decide
  have b3 : (kTipografia == kColorTexto) = false := by decide
  have b4 : (kEstiloBotones == kColorTexto) = false := by decide
  have b5 : (kNotasAdicionales == kColorTexto) = false := by decide
  have c1 : (kColorPrimario == kColorFondo) = false := by decide
  have c2 : (kColorSecundario == kColorFondo) = false := by decide
  have c3 : (kTipografia == kColorFondo) = false := by decide
  have c4 : (kEstiloBotones == kColorFondo) = false := by decide
  have c5 : (kNotasAdicionales == kColorFondo) = false := by decide
  have d1 : (kColorPrimario == kEstilo) = false := by decide
  have d2 : (kColorSecundario == kEstilo) = false := by decide
  have d3 : (kTipografia == kEstilo) = false := by decide
  have d4 : (kEstiloBotones == kEstilo) = false := by decide
  have d5 : (kNotasAdicionales == kEstilo) = false := by decide
  refine ⟨by rw [hres]; rfl, ?_, ?_, ?_⟩ <;> rw [hres]
  · simp [jsonLookup, fallbackBrand, List.find?, b1, b2, b3, b4, b5]
  · simp [jsonLookup, fallbackBrand, List.find?, c1, c2, c3, c4, c5]
  · simp [jsonLookup, fallbackBrand, List.find?, d1, d2, d3, d4, d5]

theorem b64inv_b64char : ∀ n, n < 64 → b64inv (b64char n) = n := by decide

theorem b64char_ne_pad : ∀ n, n < 64 → b64char n ≠ '=' := by decide

theorem b64_roundtrip : ∀ (bs : List Nat), (∀ x ∈ bs, x < 256) →
    b64decode (b64encode bs) = bs
  | [], _ => rfl
  | [a], h => by
    have ha : a < 256 := h a (by simp)
    have h1 : b64inv (b64char (a / 4)) = a / 4 := b64inv_b64char _ (by omega)
    have h2 : b64inv (b64char (a % 4 * 16)) = a % 4 * 16 := b64inv_b64char _ (by omega)
    rw [b64encode, b64decode]
    rw [if_pos rfl, h1, h2]
    simp only [List.cons.injEq, and_true]
    omega
  | [a, b], h => by
    have ha : a < 256 := h a (by simp)
    have hb : b < 256 := h b (by simp)
    have h1 : b64inv (b64char (a / 4)) = a / 4 := b64inv_b64char _ (by omega)
    have h2 : b64inv (b64char (a % 4 * 16 + b / 16)) = a % 4 * 16 + b / 16 :=
      b64inv_b64char _ (by omega)
    have h3 : b64inv (b64char (b % 16 * 4)) = b % 16 * 4 := b64inv_b64char _ (by omega)
    have n3 : b64char (b % 16 * 4) ≠ '=' := b64char_ne_pad _ (by omega)
    rw [b64encode, b64decode, if_neg n3, if_pos rfl, h1, h2, h3]
    simp only [List.cons.injEq, and_true]
    constructor <;> omega
  | a :: b :: c :: rest, h => by
    have ha : a < 256 := h a (by simp)
    have hb : b < 256 := h b (by simp)
    have hc : c < 256 := h c (by simp)
    have ih := b64_roundtrip rest (fun x hx => h x (by simp [hx]))
    have h1 : b64inv (b64char (a / 4)) = a / 4 := b64inv_b64char _ (by omega)
    have h2 : b64inv (b64char (a % 4 * 16 + b / 16)) = a % 4 * 16 + b / 16 :=
      b64inv_b64char _ (by omega)
    have h3 : b64inv (b64char (b % 16 * 4 + c / 64)) = b % 16 * 4 + c / 64 :=
      b64inv_b64char _ (by omega)
    have h4 : b64inv (b64char (c % 64)) = c % 64 := b64inv_b64char _ (by omega)
    have n3 : b64char (b % 16 * 4 + c / 64) ≠ '=' := b64char_ne_pad _ (by omega)
    have n4 : b64char (c % 64) ≠ '=' := b64char_ne_pad _ (by omega)
    rw [b64encode, b64decode, if_neg n3, if_neg n4, h1, h2, h3, h4, ih]
    simp only [List.cons.injEq, and_true]
    refine ⟨by omega, by omega, by omega⟩

/-- Claim C4: for a filename whose (lowercased, final) extension is in the
recognized table, the encoder reports the matching media type; and standard
base64 decoding of the encoded bytes returns exactly the original bytes. -/
theorem encoder_roundtrip_mediatype :
    (∀ (fn ext mt : List Char), (ext, mt) ∈ mediaTypes →
      fileExt fn = ext → get_image_media_type fn = mt) ∧
    (∀ fileBytes : List Nat, (∀ x ∈ fileBytes, x < 256) →
      b64decode (encode_image_to_base64 fileBytes) = fileBytes) := by
  constructor
  · intro fn ext mt hmem hext
    simp only [mediaTypes, List.mem_cons, List.not_mem_nil, or_false,
      Prod.mk.injEq] at hmem
    rcases hmem with ⟨rfl, rfl⟩ | ⟨rfl, rfl⟩ | ⟨rfl, rfl⟩ | ⟨rfl, rfl⟩ | ⟨rfl, rfl⟩ <;>
      · unfold get_image_media_type
        rw [hext]
        decide
  · intro fileBytes h
    exact b64_roundtrip fileBytes h

/-- Witness for C4: the filename `logo.PNG` (exercising the lowercasing) and
the byte sequence `[77, 97, 110]`. -/
theorem encoder_roundtrip_mediatype_witness :
    get_image_media_type "logo.PNG".toList = "image/png".toList ∧
    b64decode (encode_image_to_base64 [77, 97, 110]) = [77, 97, 110] :=
  ⟨encoder_roundtrip_mediatype.1 "logo.PNG".toList "png".toList "image/png".toList
      (by simp [mediaTypes]) (by decide),
   encoder_roundtrip_mediatype.2 [77, 97, 110] (by decide)⟩

/-- Claim C6: a filename whose extension is not in the recognized set maps to
the PNG media type (totally, with no failure path). -/
theorem media_type_default_png (fn : List Char)
    (h : fileExt fn ∉
      ["png".toList, "jpg".toList, "jpeg".toList, "gif".toList, "webp".toList]) :
    get_image_media_type fn = "image/png".toList := by
  unfold get_image_media_type
  have hfind : mediaTypes.find? (fun kv => kv.1 == fileExt fn) = none := by
    rw [List.find?_eq_none]
    intro kv hkv
    simp only [mediaTypes, List.mem_cons, List.not_mem_nil, or_false] at hkv
    simp only [beq_iff_eq]
    intro hkeq
    apply h
    rcases hkv with rfl | rfl | rfl | rfl | rfl <;> simp [← hkeq]
  rw [hfind]

/-- Witness for C6 at the filename `file.txt`. -/
theorem media_type_default_png_witness :
    get_image_media_type "file.txt".toList = "image/png".toList :=
  media_type_default_png "file.txt".toList (by decide)

theorem dictGetD_nil (k : List Char) (dflt : Json) : dictGetD [] k dflt = dflt := rfl

theorem pyStr_str (s : List Char) : pyStr (.str s) = s := rfl

theorem dictGetD_cons_self (k : List Char) (v dflt : Json) (bi : List (List Char × Json)) :
    dictGetD ((k, v) :: bi) k dflt = v := by
  simp [dictGetD, List.find?]

theorem dictGetD_cons_ne (k k' : List Char) (h : (k == k') = false) (v dflt : Json)
    (bi : List (List Char × Json)) :
    dictGetD ((k, v) :: bi) k' dflt = dictGetD bi k' dflt := by
  simp [dictGetD, List.find?, h]

theorem dictGetD_absent (bi : List (List Char × Json)) (k : List Char) (dflt : Json)
    (h : bi.find? (fun kv => kv.1 == k) = none) :
    dictGetD bi k dflt = dflt := by
  simp [dictGetD, h]

/-- Claim C3: the assembled prompt always contains the structured-sections
text as an exact contiguous substring, unmodified. -/
theorem generate_prompt_contains_sections (bi : List (List Char × Json)) (secs : List Char) :
    ∃ p q, generate_lovable_prompt bi secs = p ++ secs ++ q := by
  refine ⟨plantilla0 ++ pyStr (dictGetD bi kColorPrimario (.str "#000000".toList)) ++
      plantilla1 ++ pyStr (dictGetD bi kColorSecundario (.str "#666666".toList)) ++
      plantilla2 ++ pyStr (dictGetD bi kColorTexto (.str "gris oscuro".toList)) ++
      plantilla3 ++ pyStr (dictGetD bi kColorFondo (.str "blanco".toList)) ++
      plantilla4 ++ pyStr (dictGetD bi kTipografia (.str "Inter".toList)) ++
      plantilla5 ++ pyStr (dictGetD bi kEstilo (.str "moderno, limpio, profesional".toList)) ++
      plantilla6 ++ pyStr (dictGetD bi kColorSecundario (.str "#666666".toList)) ++
      plantilla7, plantilla8, ?_⟩
  simp [generate_lovable_prompt, plantillaFormat, List.append_assoc]

/-- Claim C2: prompt assembly is a pure function — equal inputs give equal
output — and a key absent from the mapping behaves exactly as if it were
present with its documented fixed default, which is never the sentinel. -/
theorem generate_prompt_pure_defaults (bi : List (List Char × Json)) (secs : List Char) :
    (∀ bi' secs', bi = bi' → secs = secs' →
      generate_lovable_prompt bi secs = generate_lovable_prompt bi' secs') ∧
    (∀ k d, (k, d) ∈ keyDefaults →
      List.find? (fun kv => kv.1 == k) bi = none →
      d ≠ sentinelStr ∧
        generate_lovable_prompt bi secs = generate_lovable_prompt ((k, .str d) :: bi) secs) := by
  refine ⟨fun bi' secs' h1 h2 => by rw [h1, h2], ?_⟩
  intro k d hmem hnone
  simp only [keyDefaults, List.mem_cons, List.not_mem_nil, or_false,
    Prod.mk.injEq] at hmem
  rcases hmem with ⟨rfl, rfl⟩ | ⟨rfl, rfl⟩ | ⟨rfl, rfl⟩ | ⟨rfl, rfl⟩ | ⟨rfl, rfl⟩ | ⟨rfl, rfl⟩
  · refine ⟨by decide, ?_⟩
    unfold generate_lovable_prompt
    rw [dictGetD_cons_self,
      dictGetD_cons_ne kColorPrimario kColorSecundario (by decide),
      dictGetD_cons_ne kColorPrimario kColorTexto (by decide),
      dictGetD_cons_ne kColorPrimario kColorFondo (by decide),
      dictGetD_cons_ne kColorPrimario kTipografia (by decide),
      dictGetD_cons_ne kColorPrimario kEstilo (by decide),
      dictGetD_absent bi kColorPrimario _ hnone]
  · refine ⟨by decide, ?_⟩
    unfold generate_lovable_prompt
    rw [dictGetD_cons_self,
      dictGetD_cons_ne kColorSecundario kColorPrimario (by decide),
      dictGetD_cons_ne kColorSecundario kColorTexto (by decide),
      dictGetD_cons_ne kColorSecundario kColorFondo (by decide),
      dictGetD_cons_ne kColorSecundario kTipografia (by decide),
      dictGetD_cons_ne kColorSecundario kEstilo (by decide),
      dictGetD_absent bi kColorSecundario _ hnone]
  · refine ⟨by decide, ?_⟩
    unfold generate_lovable_prompt
    rw [dictGetD_cons_self,
      dictGetD_cons_ne kColorTexto kColorPrimario (by decide),
      dictGetD_cons_ne kColorTexto kColorSecundario (by decide),
      dictGetD_cons_ne kColorTexto kColorFondo (by decide),
      dictGetD_cons_ne kColorTexto kTipografia (by decide),
      dictGetD_cons_ne kColorTexto kEstilo (by decide),
      dictGetD_absent bi kColorTexto _ hnone]
  · refine ⟨by decide, ?_⟩
    unfold generate_lovable_prompt
    rw [dictGetD_cons_self,
      dictGetD_cons_ne kColorFondo kColorPrimario (by decide),
      dictGetD_cons_ne kColorFondo kColorSecundario (by decide),
      dictGetD_cons_ne kColorFondo kColorTexto (by decide),
      dictGetD_cons_ne kColorFondo kTipografia (by decide),
      dictGetD_cons_ne kColorFondo kEstilo (by decide),
      dictGetD_absent bi kColorFondo _ hnone]
  · refine ⟨by decide, ?_⟩
    unfold generate_lovable_prompt
    rw [dictGetD_cons_self,
      dictGetD_cons_ne kTipografia kColorPrimario (by decide),
      dictGetD_cons_ne kTipografia kColorSecundario (by decide),
      dictGetD_cons_ne kTipografia kColorTexto (by decide),
      dictGetD_cons_ne kTipografia kColorFondo (by decide),
      dictGetD_cons_ne kTipografia kEstilo (by decide),
      dictGetD_absent bi kTipografia _ hnone]
  · refine ⟨by decide, ?_⟩
    unfold generate_lovable_prompt
    rw [dictGetD_cons_self,
      dictGetD_cons_ne kEstilo kColorPrimario (by decide),
      dictGetD_cons_ne kEstilo kColorSecundario (by decide),
      dictGetD_cons_ne kEstilo kColorTexto (by decide),
      dictGetD_cons_ne kEstilo kColorFondo (by decide),
      dictGetD_cons_ne kEstilo kTipografia (by decide),
      dictGetD_absent bi kEstilo _ hnone]

/-- Witness for C2: the empty mapping at the primary-color key. -/
theorem generate_prompt_pure_defaults_witness :
    "#000000".toList ≠ sentinelStr ∧
      generate_lovable_prompt [] [] =
        generate_lovable_prompt [(kColorPrimario, .str "#000000".toList)] [] :=
  (generate_prompt_pure_defaults [] []).2 kColorPrimario "#000000".toList
    (by simp [keyDefaults]) rfl

/-- Claim C10: defaults apply only to absent keys — when all six placeholder
keys are present, each present value (string-converted) is interpolated
verbatim, whatever it is (sentinel, null, or non-string); in particular a
sentinel-valued `tipografia` surfaces the sentinel in the output. -/
theorem present_keys_interpolated_verbatim (v1 v2 v3 v4 v5 v6 : Json) (secs : List Char) :
    generate_lovable_prompt
        [(kColorPrimario, v1), (kColorSecundario, v2), (kColorTexto, v3),
         (kColorFondo, v4), (kTipografia, v5), (kEstilo, v6)] secs =
      plantillaFormat v1 v2 v3 v4 v5 v6 secs ∧
    ∃ p q, generate_lovable_prompt [(kTipografia, .str sentinelStr)] [] =
      p ++ sentinelStr ++ q := by
  constructor
  · unfold generate_lovable_prompt
    simp only [dictGetD_cons_ne kColorPrimario kColorSecundario (by decide),
      dictGetD_cons_ne kColorPrimario kColorTexto (by decide),
      dictGetD_cons_ne kColorPrimario kColorFondo (by decide),
      dictGetD_cons_ne kColorPrimario kTipografia (by decide),
      dictGetD_cons_ne kColorPrimario kEstilo (by decide),
      dictGetD_cons_ne kColorSecundario kColorTexto (by decide),
      dictGetD_cons_ne kColorSecundario kColorFondo (by decide),
      dictGetD_cons_ne kColorSecundario kTipografia (by decide),
      dictGetD_cons_ne kColorSecundario kEstilo (by decide),
      dictGetD_cons_ne kColorTexto kColorFondo (by decide),
      dictGetD_cons_ne kColorTexto kTipografia (by decide),
      dictGetD_cons_ne kColorTexto kEstilo (by decide),
      dictGetD_cons_ne kColorFondo kTipografia (by decide),
      dictGetD_cons_ne kColorFondo kEstilo (by decide),
      dictGetD_cons_ne kTipografia kEstilo (by decide),
      dictGetD_cons_self]
  · refine ⟨plantilla0 ++ "#000000".toList ++ plantilla1 ++ "#666666".toList ++
        plantilla2 ++ "gris oscuro".toList ++ plantilla3 ++ "blanco".toList ++
        plantilla4,
      plantilla5 ++ "moderno, limpio, profesional".toList ++ plantilla6 ++
        "#666666".toList ++ plantilla7 ++ [] ++ plantilla8, ?_⟩
    unfold generate_lovable_prompt
    rw [dictGetD_cons_self,
      dictGetD_cons_ne kTipografia kColorPrimario (by decide),
      dictGetD_cons_ne kTipografia kColorSecundario (by decide),
      dictGetD_cons_ne kTipografia kColorTexto (by decide),
      dictGetD_cons_ne kTipografia kColorFondo (by decide),
      dictGetD_cons_ne kTipografia kEstilo (by decide)]
    simp [plantillaFormat, dictGetD_nil, pyStr_str, List.append_assoc]

/-- Witness for the amended C1 at the concrete non-JSON response `"hi"`. -/
theorem extract_fallback_amended_witness :
    parse_brand_response (fun _ => none) "hi".toList =
      .obj [(kColorPrimario, .str sentinelStr),
            (kColorSecundario, .str sentinelStr),
            (kTipografia, .str sentinelStr),
            (kEstiloBotones, .str sentinelStr),
            (kNotasAdicionales, .str (normalizeResponse "hi".toList))] :=
  (extract_fallback_amended (fun _ => none) "hi".toList rfl).1

/-- Claim C7: when either required image group is empty, the handler reports
the corresponding missing-input error and issues zero outbound requests. -/
theorem handler_missing_input_no_calls
    (send : ClientHandle → Request → Except (List Char) (List Char))
    (parse : List Char → Option Json)
    (secrets : List (List Char × List Char)) (env : Option (List Char))
    (cell0 : Option ClientHandle) (bb copy : List UploadedImage)
    (h : bb = [] ∨ copy = []) :
    (runButtonHandler send parse secrets env cell0 bb copy).2.1 = [] ∧
    ((runButtonHandler send parse secrets env cell0 bb copy).1 = .missingBrandboard ∨
      (runButtonHandler send parse secrets env cell0 bb copy).1 = .missingCopy) := by
  rcases h with rfl | rfl
  · simp [runButtonHandler]
  · by_cases hb : bb = []
    · subst hb
      simp [runButtonHandler]
    · simp [runButtonHandler, hb]

/-- Witness for C7: zero brandboard images alongside one copy image. -/
theorem handler_missing_input_no_calls_witness :
    (runButtonHandler (fun _ _ => .ok []) (fun _ => none) [] none none []
        [⟨"a.png".toList, [0]⟩]).2.1 = [] ∧
    ((runButtonHandler (fun _ _ => .ok []) (fun _ => none) [] none none []
        [⟨"a.png".toList, [0]⟩]).1 = .missingBrandboard ∨
      (runButtonHandler (fun _ _ => .ok []) (fun _ => none) [] none none []
        [⟨"a.png".toList, [0]⟩]).1 = .missingCopy) :=
  handler_missing_input_no_calls _ _ _ _ _ _ _ (Or.inl rfl)

/-- Claim C8: within one session the client handle is constructed at most
once — a call that finds a constructed client returns it unchanged, and once
the cell holds a client it holds that same client for ever — and when no
credential exists (or it is falsy) `get_client` always halts, the cell stays
empty, and a button press issues zero outbound requests. -/
theorem client_memoized_and_credential_halt
    (secrets : List (List Char × List Char)) (env : Option (List Char)) :
    (∀ c : ClientHandle, get_client secrets env (some c) = (.client c, some c)) ∧
    (∀ n m : Nat, ∀ c : ClientHandle, n ≤ m →
      clientCellAfter secrets env n = some c → clientCellAfter secrets env m = some c) ∧
    ((get_api_key secrets env = none ∨ get_api_key secrets env = some []) →
      (∀ n, clientCellAfter secrets env n = none ∧
        (get_client secrets env (clientCellAfter secrets env n)).1 = .halted) ∧
      (∀ send parse bb copy,
        (runButtonHandler send parse secrets env none bb copy).2.1 = [])) := by
  have hmem : ∀ c : ClientHandle, get_client secrets env (some c) = (.client c, some c) :=
    fun c => rfl
  refine ⟨hmem, ?_, ?_⟩
  · intro n m c hnm hn
    induction m, hnm using Nat.le_induction with
    | base => exact hn
    | succ m hm ih =>
      show (get_client secrets env (clientCellAfter secrets env m)).2 = some c
      rw [ih, hmem]
  · intro hfalsy
    have hhalt : get_client secrets env none = (.halted, none) := by
      rcases hfalsy with h | h <;> simp [get_client, h]
    constructor
    · intro n
      have hcell : ∀ k, clientCellAfter secrets env k = none := by
        intro k
        induction k with
        | zero => rfl
        | succ k ih =>
          show (get_client secrets env (clientCellAfter secrets env k)).2 = none
          rw [ih, hhalt]
      exact ⟨hcell n, by rw [hcell n, hhalt]⟩
    · intro send parse bb copy
      by_cases hb : bb = []
      · subst hb
        simp [runButtonHandler]
      · by_cases hc : copy = []
        · subst hc
          simp [runButtonHandler, hb]
        · simp [runButtonHandler, hb, hc, hhalt]

/-- Witness for C8: a session with a configured key (memoization) and a
session without one (halt with no outbound requests). -/
theorem client_memoized_and_credential_halt_witness :
    clientCellAfter [("OPENROUTER_API_KEY".toList, "k".toList)] none 3 =
      some ⟨"https://openrouter.ai/api/v1".toList, "k".toList⟩ ∧
    (runButtonHandler (fun _ _ => .ok []) (fun _ => none) [] none none
        [⟨"a.png".toList, [0]⟩] [⟨"b.png".toList, [1]⟩]).2.1 = [] :=
  ⟨(client_memoized_and_credential_halt [("OPENROUTER_API_KEY".toList, "k".toList)]
        none).2.1 1 3 _ (by omega) rfl,
   ((client_memoized_and_credential_halt [] none).2.2 (Or.inl rfl)).2
      (fun _ _ => .ok []) (fun _ => none) _ _⟩

end LovableApp

